import Mathlib

/-!
Verification development for the RANSAC-Flow repository
(`src/ransacflow/data/megadepth.py` and `src/ransacflow/model/model_orig.py`).

The Python code is shallowly embedded:
* numeric tensor entries become rationals (`ℚ`);
* tensors become explicit dimension data together with total index functions;
* Python exceptions become an explicit `PyError` sum returned through `Except`;
* file-system / ZIP-archive reads and deserialisation (`read_bytes`,
  `pd.read_csv`, `pickle.load`, the image `loader`) are abstracted into
  parameters holding their parsed results (`Option` when the member may be
  missing), since their byte-level behaviour is outside the program;
* the parent class `ZippedImageFolder` is not part of the repository sources,
  so calls into it (`super().make_dataset`, the `classes` attribute produced by
  `find_classes`) are abstracted into parameters holding their results.
-/

namespace RANSACFlow

/-- Kinds of Python exceptions raised by the embedded code.  `assertionError`
models a failed `assert`, the others model the like-named builtin exceptions;
the message strings follow the source. -/
inductive PyError where
  | assertionError (msg : String)
  | valueError (msg : String)
  | keyError (msg : String)
  | fileNotFoundError (msg : String)
deriving DecidableEq, Repr

/-! ## `MegaDepthTrainingDataset.make_dataset`

`make_dataset` first calls `super().make_dataset(...)`, which yields a list of
`(file, target_class)` pairs; that list is the `items` parameter below.  It
then rebuilds a `defaultdict(list)` keyed by target class (preserving the
order of first occurrence, as Python dicts do), asserts that every class holds
exactly 3 files, and returns the `(files, class)` pairs. -/

/-- The insertion-ordered list of distinct target classes occurring in
`items`, i.e. the iteration order of the rebuilt `defaultdict`. -/
def classList (items : List (String × ℕ)) : List ℕ :=
  items.foldl (fun ks it => if it.2 ∈ ks then ks else ks ++ [it.2]) []

/-- The files accumulated under class `cls` by the `defaultdict` loop:
all files of `items` with target class `cls`, in order. -/
def filesOf (items : List (String × ℕ)) (cls : ℕ) : List String :=
  (items.filter (fun it => it.2 = cls)).map Prod.fst

/-- The rebuilt dictionary `instances` as an association list in iteration
order: one `(class, files)` entry per distinct class of `items`. -/
def groupByClass (items : List (String × ℕ)) : List (ℕ × List String) :=
  (classList items).map (fun cls => (cls, filesOf items cls))

/-- `MegaDepthTrainingDataset.make_dataset`, after the `super()` call (whose
result is `items`): group by target class, `assert len(files) == 3` for each
class in iteration order, and return the `(files, class)` pairs. -/
def trainingMakeDataset (items : List (String × ℕ)) :
    Except PyError (List (List String × ℕ)) :=
  match (groupByClass items).find? (fun e => decide (e.2.length ≠ 3)) with
  | some e => .error (.assertionError s!"{e.1} does not have 3 images")
  | none => .ok ((groupByClass items).map (fun e => (e.2, e.1)))

/-- `MegaDepthTrainingDataset.__len__`: `len(self.classes)`, where `classes`
is the class list produced by the (inherited) `find_classes`. -/
def trainingLen (classes : List String) : ℕ := classes.length

/-! Basic facts about the grouping. -/

theorem classList_spec (items : List (String × ℕ)) :
    ∀ c : ℕ, c ∈ classList items ↔ c ∈ items.map Prod.snd := by
  have key : ∀ (l : List (String × ℕ)) (acc : List ℕ) (c : ℕ),
      c ∈ l.foldl (fun ks it => if it.2 ∈ ks then ks else ks ++ [it.2]) acc ↔
        (c ∈ acc ∨ c ∈ l.map Prod.snd) := by
    intro l
    induction l with
    | nil => intro acc c; simp
    | cons hd tl ih =>
        intro acc c
        simp only [List.foldl_cons, List.map_cons, List.mem_cons]
        by_cases hmem : hd.2 ∈ acc
        · rw [if_pos hmem, ih]
          constructor
          · rintro (h | h)
            · exact Or.inl h
            · exact Or.inr (Or.inr h)
          · rintro (h | h | h)
            · exact Or.inl h
            · exact Or.inl (h ▸ hmem)
            · exact Or.inr h
        · rw [if_neg hmem, ih]
          constructor
          · rintro (h | h)
            · rcases List.mem_append.mp h with h' | h'
              · exact Or.inl h'
              · simp at h'; exact Or.inr (Or.inl h')
            · exact Or.inr (Or.inr h)
          · rintro (h | h | h)
            · exact Or.inl (List.mem_append.mpr (Or.inl h))
            · exact Or.inl (List.mem_append.mpr (Or.inr (by simp [h])))
            · exact Or.inr h
  intro c
  simpa using key items [] c

theorem classList_nodup (items : List (String × ℕ)) :
    (classList items).Nodup := by
  have key : ∀ (l : List (String × ℕ)) (acc : List ℕ), acc.Nodup →
      (l.foldl (fun ks it => if it.2 ∈ ks then ks else ks ++ [it.2]) acc).Nodup := by
    intro l
    induction l with
    | nil => intro acc h; simpa using h
    | cons hd tl ih =>
        intro acc h
        simp only [List.foldl_cons]
        by_cases hmem : hd.2 ∈ acc
        · rw [if_pos hmem]; exact ih acc h
        · rw [if_neg hmem]
          refine ih _ ?_
          refine List.Nodup.append h (by simp) ?_
          intro a ha hb
          simp at hb
          exact hmem (hb ▸ ha)
  exact key items [] (by simp)

/-- Every entry of the rebuilt dictionary whose class is in the class list. -/
theorem mem_groupByClass (items : List (String × ℕ)) (cls : ℕ)
    (h : cls ∈ classList items) :
    (cls, filesOf items cls) ∈ groupByClass items := by
  unfold groupByClass
  exact List.mem_map.mpr ⟨cls, h, rfl⟩

/-- C1: every dataset successfully built by
`MegaDepthTrainingDataset.make_dataset` consists of samples whose file list
has length exactly 3, and whenever some target class read out of the archive
does not have exactly 3 files, `make_dataset` raises an `AssertionError`
instead of returning a dataset. -/
theorem C1_training_triplet_invariant (items : List (String × ℕ)) :
    (∀ samples, trainingMakeDataset items = .ok samples →
        ∀ s ∈ samples, s.1.length = 3) ∧
    ((∃ cls ∈ classList items, (filesOf items cls).length ≠ 3) →
        ∃ msg, trainingMakeDataset items = .error (.assertionError msg)) := by
  constructor
  · intro samples hok s hs
    unfold trainingMakeDataset at hok
    cases hfind : (groupByClass items).find? (fun e => decide (e.2.length ≠ 3)) with
    | some e => rw [hfind] at hok; exact absurd hok (by simp)
    | none =>
        rw [hfind] at hok
        have hsamples : samples = (groupByClass items).map (fun e => (e.2, e.1)) := by
          simpa using hok.symm
        subst hsamples
        rcases List.mem_map.mp hs with ⟨e, he, rfl⟩
        have := List.find?_eq_none.mp hfind e he
        simpa using this
  · rintro ⟨cls, hcls, hlen⟩
    unfold trainingMakeDataset
    cases hfind : (groupByClass items).find? (fun e => decide (e.2.length ≠ 3)) with
    | some e => exact ⟨_, rfl⟩
    | none =>
        exfalso
        have := List.find?_eq_none.mp hfind (cls, filesOf items cls)
          (mem_groupByClass items cls hcls)
        simp at this
        exact hlen this

/-- Witness for C1 at concrete archives: a well-formed archive listing
(one class holding files `a`, `b`, `c`) yields only 3-file samples, and an
archive whose class `1` holds a single file is rejected with an
`AssertionError`. -/
theorem C1_training_triplet_invariant_witness :
    (∀ s ∈ [(["a", "b", "c"], 0)], (s.1 : List String).length = 3) ∧
    (∃ msg, trainingMakeDataset [("a", 0), ("b", 0), ("c", 0), ("d", 1)] =
      .error (.assertionError msg)) := by
  constructor
  · exact (C1_training_triplet_invariant [("a", 0), ("b", 0), ("c", 0)]).1
      [(["a", "b", "c"], 0)] rfl
  · exact (C1_training_triplet_invariant [("a", 0), ("b", 0), ("c", 0), ("d", 1)]).2
      ⟨1, by decide, by decide⟩

/-- C4: on success, `make_dataset` returns one `(file-list, class)` pair per
distinct target class read out of the archive (in first-occurrence order,
each class exactly once); `__len__` returns the number of classes, so when the
classes found in the archive are exactly the classes occurring in the listing,
every index in `[0, len)` selects exactly one class's 3-file triplet. -/
theorem C4_index_to_sample_table (items : List (String × ℕ))
    (classes : List String) (samples : List (List String × ℕ))
    (hok : trainingMakeDataset items = .ok samples)
    (hclasses : classes.length = (classList items).length) :
    samples.map Prod.snd = classList items ∧
    (samples.map Prod.snd).Nodup ∧
    trainingLen classes = samples.length ∧
    (∀ i (h : i < samples.length), (samples.get ⟨i, h⟩).1.length = 3) := by
  unfold trainingMakeDataset at hok
  cases hfind : (groupByClass items).find? (fun e => decide (e.2.length ≠ 3)) with
  | some e => rw [hfind] at hok; exact absurd hok (by simp)
  | none =>
      rw [hfind] at hok
      have hsamples : samples = (groupByClass items).map (fun e => (e.2, e.1)) := by
        simpa using hok.symm
      subst hsamples
      have hmapsnd : ((groupByClass items).map (fun e => (e.2, e.1))).map Prod.snd =
          classList items := by
        unfold groupByClass
        rw [List.map_map, List.map_map]
        show List.map id (classList items) = classList items
        exact List.map_id _
      refine ⟨hmapsnd, ?_, ?_, ?_⟩
      · rw [hmapsnd]
        exact classList_nodup items
      · unfold trainingLen groupByClass
        simp [hclasses]
      · intro i h
        have hmem : ((groupByClass items).map (fun e => (e.2, e.1))).get ⟨i, h⟩ ∈
            (groupByClass items).map (fun e => (e.2, e.1)) :=
          List.get_mem _ i h
        rcases List.mem_map.mp hmem with ⟨e, he, heq⟩
        have h3 := List.find?_eq_none.mp hfind e he
        simp at h3
        rw [← heq]
        simpa using h3

/-- Witness for C4 at a concrete archive listing with two classes. -/
theorem C4_index_to_sample_table_witness :
    [(["a", "b", "c"], 0), (["d", "e", "f"], 1)].map Prod.snd =
        classList [("a", 0), ("b", 0), ("c", 0), ("d", 1), ("e", 1), ("f", 1)] ∧
    ([(["a", "b", "c"], 0), (["d", "e", "f"], 1)].map Prod.snd).Nodup ∧
    trainingLen ["s0", "s1"] = [(["a", "b", "c"], 0), (["d", "e", "f"], 1)].length ∧
    (∀ i (h : i < [(["a", "b", "c"], 0), (["d", "e", "f"], 1)].length),
      ([(["a", "b", "c"], 0), (["d", "e", "f"], 1)].get ⟨i, h⟩).1.length = 3) :=
  C4_index_to_sample_table
    [("a", 0), ("b", 0), ("c", 0), ("d", 1), ("e", 1), ("f", 1)]
    ["s0", "s1"] [(["a", "b", "c"], 0), (["d", "e", "f"], 1)]
    rfl (by decide)

/-! ## `MegaDepthTrainingDataset.__getitem__` -/

/-- Swap the entries at positions `i` and `j` of a list (no-op when either
index is out of range). -/
def listSwap (l : List ℕ) (i j : ℕ) : List ℕ :=
  match l.get? i, l.get? j with
  | some a, some b => (l.set i b).set j a
  | _, _ => l

/-- Modelled from the spec: `self._rng.choice(3, size=2, replace=False)` draws
2 elements of `range(3)` without replacement (`numpy.random.Generator.choice`;
numpy is not part of this repository).  The draw is modelled as the canonical
partial Fisher-Yates shuffle driven by an abstract stream `rand` of generator
outputs: at step `i` an index `j ∈ [i, 3)` is chosen and pool entries `i`, `j`
are swapped; the first two pool entries are returned. -/
def rngChoice3of2 (rand : ℕ → ℕ) : ℕ × ℕ :=
  let pool0 : List ℕ := [0, 1, 2]
  let pool1 := listSwap pool0 0 (rand 0 % 3)
  let pool2 := listSwap pool1 1 (1 + rand 1 % 2)
  (pool2.getD 0 0, pool2.getD 1 0)

/-- For every generator outcome, the two chosen offsets are distinct members
of `{0, 1, 2}`. -/
theorem rngChoice3of2_distinct (rand : ℕ → ℕ) :
    (rngChoice3of2 rand).1 ≠ (rngChoice3of2 rand).2 ∧
    (rngChoice3of2 rand).1 < 3 ∧ (rngChoice3of2 rand).2 < 3 := by
  unfold rngChoice3of2
  have h0 : rand 0 % 3 < 3 := Nat.mod_lt _ (by norm_num)
  have h1 : rand 1 % 2 < 2 := Nat.mod_lt _ (by norm_num)
  set r0 := rand 0 % 3 with hr0
  set r1 := rand 1 % 2 with hr1
  interval_cases r0 <;> interval_cases r1 <;> simp [listSwap]

/-- `MegaDepthTrainingDataset.__getitem__` with the archive reads explicit:
read the indexed sample's file list, pick two offsets without replacement,
and for each offset in turn call `self._handle.open(file)` — which raises
`zipfile`'s missing-member `KeyError` when the file is absent — and decode the
stream with `self.loader` (abstracted as `loader`); then assert the two
shapes agree and apply the optional transform.  Python's `files[offset]` is
modelled with a default value; the offsets are below 3 and samples built by
`make_dataset` hold 3 files, so the default is never taken on real
datasets. -/
def trainingGetItemRead (I B : Type) (openMember : String → Option B)
    (loader : B → I) (shape : I → List ℕ) (transform : Option (I × I → I × I))
    (rand : ℕ → ℕ) (samples : List (List String × ℕ))
    (index : Fin samples.length) : Except PyError (I × I) :=
  match openMember (((samples.get index).1).getD (rngChoice3of2 rand).1 "") with
  | none => .error (.keyError (((samples.get index).1).getD (rngChoice3of2 rand).1 ""))
  | some stream0 =>
    match openMember (((samples.get index).1).getD (rngChoice3of2 rand).2 "") with
    | none => .error (.keyError (((samples.get index).1).getD (rngChoice3of2 rand).2 ""))
    | some stream1 =>
      if shape (loader stream0) = shape (loader stream1) then
        .ok (match transform with
          | some t => t (loader stream0, loader stream1)
          | none => (loader stream0, loader stream1))
      else
        .error (.assertionError s!"index {index.val}, image pair has different dimensions")

/-- `MegaDepthTrainingDataset.__getitem__` restricted to successful reads
(every listed member present, as `make_dataset` built the lists from the
archive listing): the specialisation of `trainingGetItemRead` in which
`open` always succeeds and `loader` maps the file name straight to the
decoded image.  `trainingGetItem_eq_read_total` below equates the two on that
restriction. -/
def trainingGetItem (I : Type) (loader : String → I) (shape : I → List ℕ)
    (transform : Option (I × I → I × I)) (rand : ℕ → ℕ)
    (samples : List (List String × ℕ)) (index : Fin samples.length) :
    Except PyError (I × I) :=
  let files := (samples.get index).1
  let offsets := rngChoice3of2 rand
  let image0 := loader (files.getD offsets.1 "")
  let image1 := loader (files.getD offsets.2 "")
  if shape image0 = shape image1 then
    .ok (match transform with | some t => t (image0, image1) | none => (image0, image1))
  else
    .error (.assertionError s!"index {index.val}, image pair has different dimensions")

/-- On always-successful reads the read-explicit and the totalized embeddings
of the training `__getitem__` agree. -/
theorem trainingGetItem_eq_read_total (I : Type) (loader : String → I)
    (shape : I → List ℕ) (transform : Option (I × I → I × I)) (rand : ℕ → ℕ)
    (samples : List (List String × ℕ)) (index : Fin samples.length) :
    trainingGetItemRead I String (fun p => some p) loader shape transform rand
        samples index =
      trainingGetItem I loader shape transform rand samples index := rfl

/-- C7: `MegaDepthTrainingDataset.__getitem__` asserts that the two loaded
images have identical shape before any transform runs: whenever the shapes
differ it returns the assertion error whatever the transform is, and a
successful return implies the shapes agreed. -/
theorem C7_training_shape_assertion (I : Type) (loader : String → I)
    (shape : I → List ℕ) (rand : ℕ → ℕ)
    (samples : List (List String × ℕ)) (index : Fin samples.length) :
    (shape (loader (((samples.get index).1).getD (rngChoice3of2 rand).1 "")) ≠
        shape (loader (((samples.get index).1).getD (rngChoice3of2 rand).2 "")) →
      ∀ transform, trainingGetItem I loader shape transform rand samples index =
        .error (.assertionError s!"index {index.val}, image pair has different dimensions")) ∧
    (∀ transform pair,
      trainingGetItem I loader shape transform rand samples index = .ok pair →
      shape (loader (((samples.get index).1).getD (rngChoice3of2 rand).1 "")) =
        shape (loader (((samples.get index).1).getD (rngChoice3of2 rand).2 ""))) := by
  constructor
  · intro hne transform
    unfold trainingGetItem
    simp only [if_neg hne]
  · intro transform pair hok
    unfold trainingGetItem at hok
    by_cases heq : shape (loader (((samples.get index).1).getD (rngChoice3of2 rand).1 "")) =
        shape (loader (((samples.get index).1).getD (rngChoice3of2 rand).2 ""))
    · exact heq
    · rw [if_neg heq] at hok
      exact absurd hok (by simp)

/-- Witness for C7: images of different shape make `__getitem__` raise the
assertion error. -/
theorem C7_training_shape_assertion_witness :
    trainingGetItem String (fun s => s) (fun s => [s.length]) none (fun _ => 0)
        [(["a", "bb", "ccc"], 0)] ⟨0, by decide⟩ =
      .error (.assertionError "index 0, image pair has different dimensions") := by
  have h := (C7_training_shape_assertion String (fun s => s) (fun s => [s.length])
      (fun _ => 0) [(["a", "bb", "ccc"], 0)] ⟨0, by decide⟩).1 (by decide) none
  exact h

/-- C8: the two offsets are always drawn from `{0, 1, 2}` without replacement,
so on a triplet of pairwise-distinct files (as produced from distinct archive
members) the two loaded files are distinct, and a successful untransformed
item is exactly the pair of images loaded from those two distinct files. -/
theorem C8_distinct_offsets (I : Type) (loader : String → I) (shape : I → List ℕ)
    (rand : ℕ → ℕ) (samples : List (List String × ℕ)) (index : Fin samples.length)
    (hlen : ((samples.get index).1).length = 3)
    (hnodup : ((samples.get index).1).Nodup) :
    (rngChoice3of2 rand).1 ≠ (rngChoice3of2 rand).2 ∧
    ((samples.get index).1).getD (rngChoice3of2 rand).1 "" ≠
      ((samples.get index).1).getD (rngChoice3of2 rand).2 "" ∧
    (∀ pair, trainingGetItem I loader shape none rand samples index = .ok pair →
      pair = (loader (((samples.get index).1).getD (rngChoice3of2 rand).1 ""),
              loader (((samples.get index).1).getD (rngChoice3of2 rand).2 ""))) := by
  obtain ⟨hne, h1, h2⟩ := rngChoice3of2_distinct rand
  have h1' : (rngChoice3of2 rand).1 < ((samples.get index).1).length := by omega
  have h2' : (rngChoice3of2 rand).2 < ((samples.get index).1).length := by omega
  refine ⟨hne, ?_, ?_⟩
  · rw [List.getD_eq_getElem _ _ h1', List.getD_eq_getElem _ _ h2']
    intro hcontra
    exact hne ((List.Nodup.getElem_inj_iff hnodup).mp hcontra)
  · intro pair hok
    unfold trainingGetItem at hok
    by_cases heq : shape (loader (((samples.get index).1).getD (rngChoice3of2 rand).1 "")) =
        shape (loader (((samples.get index).1).getD (rngChoice3of2 rand).2 ""))
    · rw [if_pos heq] at hok
      simpa using hok.symm
    · rw [if_neg heq] at hok
      exact absurd hok (by simp)

/-- Witness for C8 at a concrete dataset and generator outcome. -/
theorem C8_distinct_offsets_witness :
    (rngChoice3of2 (fun _ => 0)).1 ≠ (rngChoice3of2 (fun _ => 0)).2 ∧
    (["a", "b", "c"].getD (rngChoice3of2 (fun _ => 0)).1 "" ≠
      ["a", "b", "c"].getD (rngChoice3of2 (fun _ => 0)).2 "") ∧
    (∀ pair, trainingGetItem String (fun s => s) (fun _ => []) none (fun _ => 0)
        [(["a", "b", "c"], 0)] ⟨0, by decide⟩ = .ok pair →
      pair = (["a", "b", "c"].getD (rngChoice3of2 (fun _ => 0)).1 "",
              ["a", "b", "c"].getD (rngChoice3of2 (fun _ => 0)).2 "")) :=
  C8_distinct_offsets String (fun s => s) (fun _ => []) (fun _ => 0)
    [(["a", "b", "c"], 0)] ⟨0, by decide⟩ (by decide) (by decide)

/-! ## `MegaDepthValidationDataset`

`matches.csv` rows and the `affine.pkl` dictionary are abstracted as already
parsed values (`pd.read_csv`, `pickle.load` and `np.fromstring` belong to
external libraries); a member that may be missing from the archive is an
`Option` whose `none` case models the `KeyError` zipfile raises for a missing
member. -/

/-- A parsed row of `matches.csv`: the scene (class) name, the two image file
names, and the `;`-separated coordinate columns `XA`, `YA`, `XB`, `YB` as
parsed by `np.fromstring`. -/
structure MatchRow where
  scene : String
  sourceImage : String
  targetImage : String
  XA : List ℚ
  YA : List ℚ
  XB : List ℚ
  YB : List ℚ

/-- `np.stack([xs, ys], axis=-1)` on two 1-D arrays: the array of coordinate
pairs when the lengths agree; numpy raises `ValueError` otherwise. -/
def npStack2 (xs ys : List ℚ) : Except PyError (List (ℚ × ℚ)) :=
  if xs.length = ys.length then .ok (xs.zip ys)
  else .error (.valueError "all input arrays must have the same shape")

/-- One entry of the validation sample list:
`((src_path, src_feat), (tgt_path, tgt_feat), affine_mat, class_index)`,
with the ground-truth affine matrix kept abstract as `A`. -/
structure ValSample (A : Type) where
  srcPath : String
  srcFeat : List (ℚ × ℚ)
  tgtPath : String
  tgtFeat : List (ℚ × ℚ)
  affineMat : A
  classIndex : ℕ

/-- The loop body of `MegaDepthValidationDataset.make_dataset` for one
`(row, affine_mat)` pair: look the scene up in `class_to_idx` (a missing key
is a Python `KeyError`), build the two in-archive paths, and stack the
coordinate columns into feature-point arrays; any raised error propagates. -/
def makeValInstance (A : Type) (class_to_idx : String → Option ℕ)
    (directory : String) (rowAff : MatchRow × A) : Except PyError (ValSample A) :=
  match class_to_idx rowAff.1.scene with
  | none => .error (.keyError rowAff.1.scene)
  | some classIndex =>
    match npStack2 rowAff.1.XA rowAff.1.YA with
    | .error e => .error e
    | .ok srcFeat =>
      match npStack2 rowAff.1.XB rowAff.1.YB with
      | .error e => .error e
      | .ok tgtFeat =>
        .ok ⟨s!"{directory}/{rowAff.1.scene}/{rowAff.1.sourceImage}", srcFeat,
             s!"{directory}/{rowAff.1.scene}/{rowAff.1.targetImage}", tgtFeat,
             rowAff.2, classIndex⟩

/-- The `for` loop of the validation `make_dataset`: build one instance per
element, stopping at (and propagating) the first raised error. -/
def buildInstances (A : Type) (class_to_idx : String → Option ℕ)
    (directory : String) : List (MatchRow × A) → Except PyError (List (ValSample A))
  | [] => .ok []
  | rowAff :: rest =>
    match makeValInstance A class_to_idx directory rowAff with
    | .error e => .error e
    | .ok inst =>
      match buildInstances A class_to_idx directory rest with
      | .error e => .error e
      | .ok insts => .ok (inst :: insts)

/-- `MegaDepthValidationDataset.make_dataset`: reject a `None` `class_to_idx`,
reject `extensions`/`is_valid_file` unless exactly one of them is `None`, read
`matches.csv` and `affine.pkl`, and build one instance per row of the match
list zipped with the affine dictionary's values (`zip` truncates to the
shorter of the two).  Deserialisation is abstracted to the parsed contents
(`matchesFile`, `affineFile`); note that the source opens `affine.pkl` in
text mode (`path.open("r")`), so on a real archive `pickle.load` itself fails
on the text handle whenever the member exists — a failure internal to the
pickle library, outside this embedding's characterised error kinds. -/
def validationMakeDataset (A : Type) (directory : String)
    (class_to_idx : Option (String → Option ℕ))
    (extensions : Option (List String))
    (is_valid_file : Option (String → Bool))
    (matchesFile : Option (List MatchRow))
    (affineFile : Option (List A)) : Except PyError (List (ValSample A)) :=
  match class_to_idx with
  | none => .error (.valueError "'class_to_idx' parameter cannot be None")
  | some c2i =>
    if extensions.isNone = is_valid_file.isNone then
      .error (.valueError
        "both 'extensions' and 'is_valid_file' cannot be None or not None at the same time")
    else
      match matchesFile with
      | none => .error (.keyError "matches.csv")
      | some matchRows =>
        match affineFile with
        | none => .error (.keyError "affine.pkl")
        | some affineMats =>
          buildInstances A c2i directory (matchRows.zip affineMats)

/-- `MegaDepthValidationDataset.find_classes`: fail with `ValueError` when the
directory is absent from the archive, read `matches.csv`, deduplicate the
scene column (`list(set(...))`; Python's set order is implementation-defined,
a canonical order is used here), check that every class folder exists, and
return the classes with their index mapping. -/
def findClasses (directoryExists : Bool) (directory : String)
    (matchesFile : Option (List MatchRow))
    (classExists : String → Bool) :
    Except PyError (List String × (String → Option ℕ)) :=
  if directoryExists then
    match matchesFile with
    | none => .error (.keyError "matches.csv")
    | some matchRows =>
      let classes := (matchRows.map MatchRow.scene).dedup
      match classes.find? (fun c => ! classExists c) with
      | some c => .error (.fileNotFoundError s!"could not find '{c}'")
      | none => .ok (classes, fun s => classes.indexOf? s)
  else
    .error (.valueError s!"unable to locate '{directory}' in the ZIP file")

/-- The item type returned by `MegaDepthValidationDataset.__getitem__`:
`((src_image, src_feat), (tgt_image, tgt_feat), affine_mat)`. -/
def ValItem (I A : Type) : Type :=
  (I × List (ℚ × ℚ)) × (I × List (ℚ × ℚ)) × A

/-- `MegaDepthValidationDataset.__getitem__` with the archive reads explicit:
`src_path.read_bytes()` / `tgt_path.read_bytes()` raise `zipfile`'s
missing-member `KeyError` when the image member named by `matches.csv` is
absent from the archive (the paths are built unchecked by `make_dataset`);
`readBytes` returns the member's bytes when it exists, and the byte-level
image decoder `self.loader` is abstracted as `loader`.  After both loads the
feature-point arrays' lengths are asserted equal, then the item is packed and
the optional transform applied. -/
def validationGetItemRead (I A B : Type) (readBytes : String → Option B)
    (loader : B → I) (transform : Option (ValItem I A → ValItem I A))
    (samples : List (ValSample A)) (index : Fin samples.length) :
    Except PyError (ValItem I A) :=
  match readBytes (samples.get index).srcPath with
  | none => .error (.keyError (samples.get index).srcPath)
  | some srcBytes =>
    match readBytes (samples.get index).tgtPath with
    | none => .error (.keyError (samples.get index).tgtPath)
    | some tgtBytes =>
      if (samples.get index).srcFeat.length = (samples.get index).tgtFeat.length then
        let item : ValItem I A :=
          ((loader srcBytes, (samples.get index).srcFeat),
           (loader tgtBytes, (samples.get index).tgtFeat),
           (samples.get index).affineMat)
        .ok (match transform with | some t => t item | none => item)
      else
        .error (.assertionError s!"index {index.val}, missing feature points")

/-- `MegaDepthValidationDataset.__getitem__` restricted to successful reads
(every archive member present): the specialisation of `validationGetItemRead`
in which `read_bytes` always succeeds and `loader` maps the path straight to
the decoded image.  `validationGetItem_eq_read_total` below equates the two on
that restriction. -/
def validationGetItem (I A : Type) (loader : String → I)
    (transform : Option (ValItem I A → ValItem I A))
    (samples : List (ValSample A)) (index : Fin samples.length) :
    Except PyError (ValItem I A) :=
  let s := samples.get index
  let srcImage := loader s.srcPath
  let tgtImage := loader s.tgtPath
  if s.srcFeat.length = s.tgtFeat.length then
    let item : ValItem I A := ((srcImage, s.srcFeat), (tgtImage, s.tgtFeat), s.affineMat)
    .ok (match transform with | some t => t item | none => item)
  else
    .error (.assertionError s!"index {index.val}, missing feature points")

/-- On always-successful reads the read-explicit and the totalized embeddings
of the validation `__getitem__` agree. -/
theorem validationGetItem_eq_read_total (I A : Type) (loader : String → I)
    (transform : Option (ValItem I A → ValItem I A))
    (samples : List (ValSample A)) (index : Fin samples.length) :
    validationGetItemRead I A String (fun p => some p) loader transform
        samples index =
      validationGetItem I A loader transform samples index := rfl

/-- C2: `MegaDepthValidationDataset.__getitem__` returns an item only when the
source and target feature-coordinate arrays of the indexed sample have the
same length; when the lengths differ it returns the assertion error before
any transform is applied (the same error for every transform). -/
theorem C2_matched_feature_lengths (I A : Type) (loader : String → I)
    (samples : List (ValSample A)) (index : Fin samples.length) :
    ((samples.get index).srcFeat.length ≠ (samples.get index).tgtFeat.length →
      ∀ transform, validationGetItem I A loader transform samples index =
        .error (.assertionError s!"index {index.val}, missing feature points")) ∧
    (∀ transform item,
      validationGetItem I A loader transform samples index = .ok item →
      (samples.get index).srcFeat.length = (samples.get index).tgtFeat.length) := by
  constructor
  · intro hne transform
    unfold validationGetItem
    simp only [if_neg hne]
  · intro transform item hok
    unfold validationGetItem at hok
    by_cases heq : (samples.get index).srcFeat.length = (samples.get index).tgtFeat.length
    · exact heq
    · rw [if_neg heq] at hok
      exact absurd hok (by simp)

/-- Witness for C2: a sample with 1 source feature point and 2 target feature
points makes `__getitem__` raise the assertion error. -/
theorem C2_matched_feature_lengths_witness :
    validationGetItem Unit Unit (fun _ => ()) none
        [⟨"s", [(0, 0)], "t", [(0, 0), (1, 1)], (), 0⟩] ⟨0, by decide⟩ =
      .error (.assertionError "index 0, missing feature points") := by
  exact (C2_matched_feature_lengths Unit Unit (fun _ => ())
      [⟨"s", [(0, 0)], "t", [(0, 0), (1, 1)], (), 0⟩] ⟨0, by decide⟩).1
    (by decide) none

/-! ## Failure-mode characterisation -/

/-- The loop body of the validation `make_dataset` can fail only with a
`KeyError` (scene missing from `class_to_idx`) or numpy's stacking
`ValueError`. -/
theorem makeValInstance_error (A : Type) (c2i : String → Option ℕ)
    (directory : String) (rowAff : MatchRow × A) (e : PyError)
    (h : makeValInstance A c2i directory rowAff = .error e) :
    (∃ m, e = .keyError m) ∨
    e = .valueError "all input arrays must have the same shape" := by
  unfold makeValInstance at h
  cases hc : c2i rowAff.1.scene with
  | none =>
      rw [hc] at h
      cases h
      exact Or.inl ⟨_, rfl⟩
  | some i =>
      rw [hc] at h
      cases h1 : npStack2 rowAff.1.XA rowAff.1.YA with
      | error e1 =>
          rw [h1] at h
          cases h
          unfold npStack2 at h1
          by_cases hl : rowAff.1.XA.length = rowAff.1.YA.length
          · rw [if_pos hl] at h1; cases h1
          · rw [if_neg hl] at h1; cases h1; exact Or.inr rfl
      | ok srcFeat =>
          rw [h1] at h
          cases h2 : npStack2 rowAff.1.XB rowAff.1.YB with
          | error e2 =>
              rw [h2] at h
              cases h
              unfold npStack2 at h2
              by_cases hl : rowAff.1.XB.length = rowAff.1.YB.length
              · rw [if_pos hl] at h2; cases h2
              · rw [if_neg hl] at h2; cases h2; exact Or.inr rfl
          | ok tgtFeat =>
              rw [h2] at h
              cases h

/-- An errored instance-building loop pinpoints a failing element. -/
theorem buildInstances_error (A : Type) (c2i : String → Option ℕ)
    (directory : String) :
    ∀ (l : List (MatchRow × A)) (e : PyError),
      buildInstances A c2i directory l = .error e →
      ∃ x ∈ l, makeValInstance A c2i directory x = .error e := by
  intro l
  induction l with
  | nil => intro e h; cases h
  | cons hd tl ih =>
      intro e h
      unfold buildInstances at h
      cases hf : makeValInstance A c2i directory hd with
      | error e' =>
          rw [hf] at h
          cases h
          exact ⟨hd, List.mem_cons_self _ _, hf⟩
      | ok inst =>
          rw [hf] at h
          cases ht : buildInstances A c2i directory tl with
          | error e' =>
              rw [ht] at h
              cases h
              rcases ih e ht with ⟨x, hx, hfx⟩
              exact ⟨x, List.mem_cons_of_mem _ hx, hfx⟩
          | ok insts =>
              rw [ht] at h
              cases h

/-- Every failure of the validation `make_dataset` is one of: the two
parameter-validation `ValueError`s, a `KeyError` (missing archive member or
unknown scene), or numpy's stacking `ValueError`. -/
theorem validationMakeDataset_error (A : Type) (directory : String)
    (class_to_idx : Option (String → Option ℕ)) (extensions : Option (List String))
    (is_valid_file : Option (String → Bool)) (matchesFile : Option (List MatchRow))
    (affineFile : Option (List A)) (e : PyError)
    (h : validationMakeDataset A directory class_to_idx extensions is_valid_file
      matchesFile affineFile = .error e) :
    e = .valueError "'class_to_idx' parameter cannot be None" ∨
    e = .valueError
      "both 'extensions' and 'is_valid_file' cannot be None or not None at the same time" ∨
    (∃ m, e = .keyError m) ∨
    e = .valueError "all input arrays must have the same shape" := by
  unfold validationMakeDataset at h
  cases class_to_idx with
  | none =>
      simp only at h
      cases h
      exact Or.inl rfl
  | some c2i =>
      simp only at h
      by_cases hx : extensions.isNone = is_valid_file.isNone
      · rw [if_pos hx] at h
        cases h
        exact Or.inr (Or.inl rfl)
      · rw [if_neg hx] at h
        cases matchesFile with
        | none => cases h; exact Or.inr (Or.inr (Or.inl ⟨_, rfl⟩))
        | some matchRows =>
            cases affineFile with
            | none => cases h; exact Or.inr (Or.inr (Or.inl ⟨_, rfl⟩))
            | some affineMats =>
                rcases buildInstances_error A c2i directory _ e h with ⟨rowAff, _, hrow⟩
                rcases makeValInstance_error A c2i directory rowAff e hrow with h' | h'
                · exact Or.inr (Or.inr (Or.inl h'))
                · exact Or.inr (Or.inr (Or.inr h'))

/-- Every failure of the validation `find_classes` is the directory-missing
`ValueError`, a `KeyError` for a missing archive member, or a
`FileNotFoundError` for a missing class folder. -/
theorem findClasses_error (directoryExists : Bool) (directory : String)
    (matchesFile : Option (List MatchRow)) (classExists : String → Bool)
    (e : PyError)
    (h : findClasses directoryExists directory matchesFile classExists = .error e) :
    e = .valueError s!"unable to locate '{directory}' in the ZIP file" ∨
    (∃ m, e = .keyError m) ∨ (∃ m, e = .fileNotFoundError m) := by
  unfold findClasses at h
  cases directoryExists with
  | false => cases h; exact Or.inl rfl
  | true =>
      simp only [if_true] at h
      cases matchesFile with
      | none => cases h; exact Or.inr (Or.inl ⟨_, rfl⟩)
      | some matchRows =>
          simp only at h
          cases hf : ((matchRows.map MatchRow.scene).dedup).find? (fun c => ! classExists c) with
          | some c => rw [hf] at h; cases h; exact Or.inr (Or.inr ⟨_, rfl⟩)
          | none => rw [hf] at h; simp at h

/-- C10: the validation `make_dataset` validates its parameters before
touching any data: a `None` `class_to_idx` is rejected with `ValueError`
whatever the other arguments are; when both or neither of `extensions` and
`is_valid_file` are `None` it raises the exclusivity `ValueError`; and under
the preconditions (a `class_to_idx` and exactly one of the two being `None`)
neither parameter-validation `ValueError` can be the outcome. -/
theorem C10_make_dataset_parameter_validation (A : Type) (directory : String) :
    (∀ extensions is_valid_file matchesFile (affineFile : Option (List A)),
      validationMakeDataset A directory none extensions is_valid_file
          matchesFile affineFile =
        .error (.valueError "'class_to_idx' parameter cannot be None")) ∧
    (∀ c2i matchesFile (affineFile : Option (List A)),
      validationMakeDataset A directory (some c2i) none none
          matchesFile affineFile =
        .error (.valueError
          "both 'extensions' and 'is_valid_file' cannot be None or not None at the same time")) ∧
    (∀ c2i exts ivf matchesFile (affineFile : Option (List A)),
      validationMakeDataset A directory (some c2i) (some exts) (some ivf)
          matchesFile affineFile =
        .error (.valueError
          "both 'extensions' and 'is_valid_file' cannot be None or not None at the same time")) ∧
    (∀ c2i extensions is_valid_file matchesFile (affineFile : Option (List A)) e,
      extensions.isNone ≠ is_valid_file.isNone →
      validationMakeDataset A directory (some c2i) extensions is_valid_file
          matchesFile affineFile = .error e →
      e ≠ .valueError "'class_to_idx' parameter cannot be None" ∧
      e ≠ .valueError
        "both 'extensions' and 'is_valid_file' cannot be None or not None at the same time") := by
  refine ⟨?_, ?_, ?_, ?_⟩
  · intro extensions is_valid_file matchesFile affineFile
    rfl
  · intro c2i matchesFile affineFile
    rfl
  · intro c2i exts ivf matchesFile affineFile
    rfl
  · intro c2i extensions is_valid_file matchesFile affineFile e hxor h
    simp only [validationMakeDataset] at h
    rw [if_neg hxor] at h
    cases matchesFile with
    | none =>
        cases h
        exact ⟨by simp, by simp⟩
    | some matchRows =>
        cases affineFile with
        | none =>
            cases h
            exact ⟨by simp, by simp⟩
        | some affineMats =>
            rcases buildInstances_error A c2i directory _ e h with ⟨rowAff, _, hrow⟩
            rcases makeValInstance_error A c2i directory rowAff e hrow with h' | h'
            · rcases h' with ⟨m, rfl⟩
              exact ⟨by simp, by simp⟩
            · subst h'
              exact ⟨by simp, by simp⟩

/-- Witness for C10 at concrete arguments: the three rejection branches fire,
and the precondition branch of a concrete well-formed call yields no
parameter `ValueError`. -/
theorem C10_make_dataset_parameter_validation_witness :
    validationMakeDataset Unit "root" none none none none none =
      .error (.valueError "'class_to_idx' parameter cannot be None") ∧
    validationMakeDataset Unit "root" (some (fun _ => some 0)) none none none none =
      .error (.valueError
        "both 'extensions' and 'is_valid_file' cannot be None or not None at the same time") ∧
    validationMakeDataset Unit "root" (some (fun _ => some 0)) (some [".jpg"])
        (some (fun _ => true)) none none =
      .error (.valueError
        "both 'extensions' and 'is_valid_file' cannot be None or not None at the same time") ∧
    ((PyError.keyError "matches.csv") ≠
        .valueError "'class_to_idx' parameter cannot be None" ∧
      (PyError.keyError "matches.csv") ≠
        .valueError
          "both 'extensions' and 'is_valid_file' cannot be None or not None at the same time") := by
  refine ⟨?_, ?_, ?_, ?_⟩
  · exact (C10_make_dataset_parameter_validation Unit "root").1 none none none none
  · exact (C10_make_dataset_parameter_validation Unit "root").2.1 (fun _ => some 0) none none
  · exact (C10_make_dataset_parameter_validation Unit "root").2.2.1 (fun _ => some 0)
      [".jpg"] (fun _ => true) none none
  · exact (C10_make_dataset_parameter_validation Unit "root").2.2.2 (fun _ => some 0)
      (some [".jpg"]) none none none (.keyError "matches.csv") (by decide) rfl

/-- The failure modes exhibited by the embedded dataset operations: assertion
failures, missing-file errors (missing archive members — `matches.csv`,
`affine.pkl`, or image members named by `matches.csv` — via `KeyError`,
missing class folders via `FileNotFoundError`, the missing images directory
via `ValueError`), the two parameter-validation `ValueError`s, a `KeyError`
for a scene absent from `class_to_idx`, and numpy's stacking `ValueError` for
mismatched coordinate columns. -/
def datasetFailureModes (e : PyError) : Prop :=
  (∃ m, e = .assertionError m) ∨ (∃ m, e = .fileNotFoundError m) ∨
  (∃ m, e = .keyError m) ∨
  e = .valueError "'class_to_idx' parameter cannot be None" ∨
  e = .valueError
    "both 'extensions' and 'is_valid_file' cannot be None or not None at the same time" ∨
  e = .valueError "all input arrays must have the same shape" ∨
  (∃ d : String, e = .valueError s!"unable to locate '{d}' in the ZIP file")

/-- C3 counterexample: calling the validation `make_dataset` with
`class_to_idx = None` raises a `ValueError` for an invalid parameter, which is
neither an assertion failure about image/feature counts nor a missing-file
error, so errors are not limited to those two kinds. -/
theorem C3_counterexample_parameter_valueerror :
    validationMakeDataset Unit "root" none (some [".jpg"]) none (some []) (some []) =
      .error (.valueError "'class_to_idx' parameter cannot be None") ∧
    (∀ m, PyError.valueError "'class_to_idx' parameter cannot be None" ≠
      .assertionError m) ∧
    (∀ m, PyError.valueError "'class_to_idx' parameter cannot be None" ≠
      .fileNotFoundError m) ∧
    (∀ m, PyError.valueError "'class_to_idx' parameter cannot be None" ≠
      .keyError m) := by
  refine ⟨rfl, ?_, ?_, ?_⟩ <;> intro m <;> simp

/-- C3 amended: excluding failures internal to the external parsing libraries
(pandas CSV parsing, `pickle` deserialisation — note `affine.pkl` is opened in
text mode, so `pickle.load` itself fails on any existing member — and the
image decoder), every error raised by the dataset classes' public operations
is an assertion failure on mismatched image/feature counts or image shapes, a
missing-file error (missing images directory, class folder, or archive
member, including image members named by `matches.csv`), a `ValueError`
rejecting invalid `make_dataset` parameters, a `KeyError` for a scene name
absent from `class_to_idx`, or numpy's `ValueError` from stacking mismatched
coordinate columns.  In particular each `__getitem__` fails only with its
shape/length assertion or a missing-member `KeyError`. -/
theorem C3_failure_modes_characterised :
    (∀ items e, trainingMakeDataset items = .error e →
      ∃ m, e = .assertionError m) ∧
    (∀ (A : Type) directory class_to_idx extensions is_valid_file matchesFile
        (affineFile : Option (List A)) e,
      validationMakeDataset A directory class_to_idx extensions is_valid_file
          matchesFile affineFile = .error e →
      datasetFailureModes e) ∧
    (∀ directoryExists directory matchesFile classExists e,
      findClasses directoryExists directory matchesFile classExists = .error e →
      datasetFailureModes e) ∧
    (∀ (I A B : Type) (readBytes : String → Option B) (loader : B → I) transform
        (samples : List (ValSample A)) (index : Fin samples.length) e,
      validationGetItemRead I A B readBytes loader transform samples index =
        .error e →
      (∃ m, e = .assertionError m) ∨ (∃ m, e = .keyError m)) ∧
    (∀ (I B : Type) (openMember : String → Option B) (loader : B → I) shape
        transform rand (samples : List (List String × ℕ))
        (index : Fin samples.length) e,
      trainingGetItemRead I B openMember loader shape transform rand samples
          index = .error e →
      (∃ m, e = .assertionError m) ∨ (∃ m, e = .keyError m)) := by
  refine ⟨?_, ?_, ?_, ?_, ?_⟩
  · intro items e h
    unfold trainingMakeDataset at h
    cases hfind : (groupByClass items).find? (fun e => decide (e.2.length ≠ 3)) with
    | some entry => rw [hfind] at h; cases h; exact ⟨_, rfl⟩
    | none => rw [hfind] at h; cases h
  · intro A directory class_to_idx extensions is_valid_file matchesFile affineFile e h
    unfold datasetFailureModes
    rcases validationMakeDataset_error A directory class_to_idx extensions
        is_valid_file matchesFile affineFile e h with h' | h' | h' | h'
    · exact Or.inr (Or.inr (Or.inr (Or.inl h')))
    · exact Or.inr (Or.inr (Or.inr (Or.inr (Or.inl h'))))
    · exact Or.inr (Or.inr (Or.inl h'))
    · exact Or.inr (Or.inr (Or.inr (Or.inr (Or.inr (Or.inl h')))))
  · intro directoryExists directory matchesFile classExists e h
    unfold datasetFailureModes
    rcases findClasses_error directoryExists directory matchesFile classExists e h
        with h' | h' | h'
    · exact Or.inr (Or.inr (Or.inr (Or.inr (Or.inr (Or.inr ⟨directory, h'⟩)))))
    · exact Or.inr (Or.inr (Or.inl h'))
    · exact Or.inr (Or.inl h')
  · intro I A B readBytes loader transform samples index e h
    unfold validationGetItemRead at h
    cases hs : readBytes (samples.get index).srcPath with
    | none =>
        simp only [hs] at h
        cases h
        exact Or.inr ⟨_, rfl⟩
    | some srcBytes =>
        cases ht : readBytes (samples.get index).tgtPath with
        | none =>
            simp only [hs, ht] at h
            cases h
            exact Or.inr ⟨_, rfl⟩
        | some tgtBytes =>
            simp only [hs, ht] at h
            by_cases heq : (samples.get index).srcFeat.length =
                (samples.get index).tgtFeat.length
            · rw [if_pos heq] at h
              exact absurd h (by simp)
            · rw [if_neg heq] at h
              cases h
              exact Or.inl ⟨_, rfl⟩
  · intro I B openMember loader shape transform rand samples index e h
    unfold trainingGetItemRead at h
    cases h0 : openMember (((samples.get index).1).getD (rngChoice3of2 rand).1 "") with
    | none =>
        simp only [h0] at h
        cases h
        exact Or.inr ⟨_, rfl⟩
    | some stream0 =>
        cases h1 : openMember (((samples.get index).1).getD (rngChoice3of2 rand).2 "") with
        | none =>
            simp only [h0, h1] at h
            cases h
            exact Or.inr ⟨_, rfl⟩
        | some stream1 =>
            simp only [h0, h1] at h
            by_cases heq : shape (loader stream0) = shape (loader stream1)
            · rw [if_pos heq] at h
              exact absurd h (by simp)
            · rw [if_neg heq] at h
              cases h
              exact Or.inl ⟨_, rfl⟩

/-- Witness for the amended C3 at concrete failing inputs: a failing
`make_dataset` call, a failing `find_classes` call, and a validation
`__getitem__` whose source image member is absent all land in the
characterised failure modes. -/
theorem C3_failure_modes_characterised_witness :
    datasetFailureModes (.valueError "'class_to_idx' parameter cannot be None") ∧
    datasetFailureModes (.valueError "unable to locate 'images' in the ZIP file") ∧
    ((∃ m, PyError.keyError "s" = .assertionError m) ∨
      (∃ m, PyError.keyError "s" = .keyError m)) := by
  refine ⟨?_, ?_, ?_⟩
  · exact C3_failure_modes_characterised.2.1 Unit "root" none none none none none
      (.valueError "'class_to_idx' parameter cannot be None") rfl
  · exact C3_failure_modes_characterised.2.2.1 false "images" none (fun _ => true)
      (.valueError "unable to locate 'images' in the ZIP file") rfl
  · exact C3_failure_modes_characterised.2.2.2.1 Unit Unit Unit (fun _ => none)
      (fun _ => ()) none [⟨"s", [], "t", [], (), 0⟩] ⟨0, by decide⟩
      (.keyError "s") rfl

/-! ## `model_orig.py`: `CorrNeigh`

Tensors are embedded as total index functions `(batch, channel, dim2, dim3) ↦ ℚ`
with their dimensions carried separately (the code calls the two spatial
extents `w` and `h`, reading them off `x.size()[2:]`); tensor entries are
modelled as rationals. -/

/-- `torch.nn.ZeroPad2d(pad)` on an `(n, c, w, h)` tensor: the result has
spatial extent `(w + 2*pad, h + 2*pad)` and holds `y` shifted by `pad`, zero
outside. -/
def zeroPad2d (pad w h : ℕ) (y : ℕ → ℕ → ℕ → ℕ → ℚ) : ℕ → ℕ → ℕ → ℕ → ℚ :=
  fun b c a bq =>
    if pad ≤ a ∧ a < w + pad ∧ pad ≤ bq ∧ bq < h + pad then
      y b c (a - pad) (bq - pad)
    else 0

/-- The channel list built by `CorrNeigh.forward`: pad `y` by
`kernelSize // 2`, then for `(i, j)` ranging over the row-major
`product(range(kernelSize), range(kernelSize))` append
`torch.sum(x * y.narrow(2, i, w).narrow(3, j, h), dim=1)` (narrowing the
padded tensor at offset `(i, j)` to extent `(w, h)`). -/
def corrNeighChannels (kernelSize c w h : ℕ) (x y : ℕ → ℕ → ℕ → ℕ → ℚ) :
    List (ℕ → ℕ → ℕ → ℚ) :=
  (List.range kernelSize).bind fun i =>
    (List.range kernelSize).map fun j =>
      fun b p q => ∑ ch ∈ Finset.range c,
        x b ch p q * zeroPad2d (kernelSize / 2) w h y b ch (p + i) (q + j)

/-- `CorrNeigh.forward` output: `torch.cat(coef, dim=1)` of the channel list,
i.e. the `(n, kernelSize², w, h)` tensor whose channel `t` is the `t`-th list
entry. -/
def corrNeighForward (kernelSize c w h : ℕ) (x y : ℕ → ℕ → ℕ → ℕ → ℚ) :
    ℕ → ℕ → ℕ → ℕ → ℚ :=
  fun b t p q =>
    ((corrNeighChannels kernelSize c w h x y).getD t (fun _ _ _ => 0)) b p q

/-- Reading `y` zero-extended at integer spatial coordinates: its value at
`(a, bq)`, zero outside `[0, w) × [0, h)`. -/
def zeroExtend (w h : ℕ) (y : ℕ → ℕ → ℕ → ℕ → ℚ) (b c : ℕ) (a bq : ℤ) : ℚ :=
  if 0 ≤ a ∧ a < w ∧ 0 ≤ bq ∧ bq < h then y b c a.toNat bq.toNat else 0

/-- Indexing a `bind` of constant-length blocks: entry `n * k + j` of
`xs.bind g` is entry `j` of the `n`-th block. -/
theorem get?_bind_const_length {α : Type} (k : ℕ) :
    ∀ (xs : List ℕ) (g : ℕ → List α), (∀ x ∈ xs, (g x).length = k) →
      ∀ (n j : ℕ), j < k → ∀ (hn : n < xs.length),
        (xs.bind g).get? (n * k + j) = (g (xs.get ⟨n, hn⟩)).get? j := by
  intro xs
  induction xs with
  | nil => intro g hg n j hj hn; exact absurd hn (by simp)
  | cons x xs ih =>
      intro g hg n j hj hn
      have hcons : (x :: xs).bind g = g x ++ xs.bind g := by simp
      rw [hcons]
      cases n with
      | zero =>
          have hlt : 0 * k + j < (g x).length := by
            rw [hg x (List.mem_cons_self _ _)]; omega
          rw [List.get?_append hlt]
          simp
      | succ m =>
          have hge : (g x).length ≤ (m + 1) * k + j := by
            rw [hg x (List.mem_cons_self _ _)]; nlinarith
          rw [List.get?_append_right hge]
          have harith : (m + 1) * k + j - (g x).length = m * k + j := by
            rw [hg x (List.mem_cons_self _ _)]; ring_nf; omega
          rw [harith]
          have hm : m < xs.length := by simpa using hn
          rw [ih g (fun z hz => hg z (List.mem_cons_of_mem _ hz)) m j hj hm]
          rfl

/-- C5: `CorrNeigh.forward` on `(n, c, w, h)` inputs produces `kernelSize²`
channels, and the channel at row-major neighbourhood offset `(i, j)` (channel
index `i*kernelSize + j`) at spatial position `(p, q)` is the sum over the
`c` feature channels of `x` at `(p, q)` times the zero-padded `y` at
`(p + i - pad, q + j - pad)` with `pad = kernelSize // 2`. -/
theorem C5_corrneigh_per_pixel_correlation (kernelSize c w h : ℕ)
    (x y : ℕ → ℕ → ℕ → ℕ → ℚ) (hodd : kernelSize % 2 = 1)
    (b i j p q : ℕ) (hi : i < kernelSize) (hj : j < kernelSize) :
    (corrNeighChannels kernelSize c w h x y).length = kernelSize * kernelSize ∧
    corrNeighForward kernelSize c w h x y b (i * kernelSize + j) p q =
      ∑ ch ∈ Finset.range c, x b ch p q *
        zeroExtend w h y b ch ((p : ℤ) + i - (kernelSize / 2 : ℕ))
          ((q : ℤ) + j - (kernelSize / 2 : ℕ)) := by
  constructor
  · unfold corrNeighChannels
    rw [List.length_bind]
    simp [Function.comp_def]
  · unfold corrNeighForward
    have hget := get?_bind_const_length kernelSize (List.range kernelSize)
      (fun a => (List.range kernelSize).map fun jj =>
        fun bb p q => ∑ ch ∈ Finset.range c,
          x bb ch p q * zeroPad2d (kernelSize / 2) w h y bb ch (p + a) (q + jj))
      (by intro z hz; simp) i j hj (by simpa using hi)
    unfold corrNeighChannels
    rw [List.getD_eq_getElem?_getD, ← List.get?_eq_getElem?, hget]
    rw [List.get_range]
    rw [List.get?_map, List.get?_range hj]
    simp only [Option.map_some', Option.getD_some]
    apply Finset.sum_congr rfl
    intro ch _
    congr 1
    unfold zeroPad2d zeroExtend
    set pad := kernelSize / 2 with hpad
    by_cases hcond : pad ≤ p + i ∧ p + i < w + pad ∧ pad ≤ q + j ∧ q + j < h + pad
    · rw [if_pos hcond, if_pos (by omega)]
      have e1 : ((p : ℤ) + i - (pad : ℤ)).toNat = p + i - pad := by omega
      have e2 : ((q : ℤ) + j - (pad : ℤ)).toNat = q + j - pad := by omega
      rw [e1, e2]
    · rw [if_neg hcond, if_neg (by omega)]

/-- Witness for C5: a concrete 3×3 correlation on 1×1 spatial extent, centre
offset `(1, 1)`. -/
theorem C5_corrneigh_per_pixel_correlation_witness :
    (corrNeighChannels 3 1 1 1 (fun _ _ _ _ => 1) (fun _ _ _ _ => 1)).length = 3 * 3 ∧
    corrNeighForward 3 1 1 1 (fun _ _ _ _ => 1) (fun _ _ _ _ => 1) 0 (1 * 3 + 1) 0 0 =
      ∑ ch ∈ Finset.range 1, (fun (_ _ _ _ : ℕ) => (1 : ℚ)) 0 ch 0 0 *
        zeroExtend 1 1 (fun _ _ _ _ => 1) 0 ch ((0 : ℤ) + 1 - ((3 / 2 : ℕ) : ℤ))
          ((0 : ℤ) + 1 - ((3 / 2 : ℕ) : ℤ)) :=
  C5_corrneigh_per_pixel_correlation 3 1 1 1 (fun _ _ _ _ => 1) (fun _ _ _ _ => 1)
    rfl 0 1 1 0 0 (by decide) (by decide)

/-! ## `model_orig.py`: `NetFlow` -/

/-- A 4-D tensor with explicit dimensions `(n, c, w, h)` and a total index
function (the code reads the spatial extents as `w, h = x.size()[2:]`). -/
structure Tensor4 where
  n : ℕ
  c : ℕ
  w : ℕ
  h : ℕ
  data : ℕ → ℕ → ℕ → ℕ → ℚ

/-- `conv3x3`: `nn.Conv2d(·, out_features, kernel_size=3, stride=1,
padding=1, bias=False)` with the given weight tensor; spatial extent is
preserved. -/
def conv3x3 (outC : ℕ) (weight : ℕ → ℕ → ℕ → ℕ → ℚ) (t : Tensor4) : Tensor4 :=
  { n := t.n, c := outC, w := t.w, h := t.h,
    data := fun b oc p q =>
      ∑ ic ∈ Finset.range t.c, ∑ di ∈ Finset.range 3, ∑ dj ∈ Finset.range 3,
        weight oc ic di dj * zeroPad2d 1 t.w t.h t.data b ic (p + di) (q + dj) }

/-- `nn.BatchNorm2d` at inference: the per-channel affine map
`(v - mean[ch]) * invStd[ch] * gamma[ch] + beta[ch]`, where `invStd` holds the
fixed per-channel constant `1 / sqrt(var + eps)` (square roots leave `ℚ`, so
the constant is supplied as data). -/
def batchNorm2d (mean invStd gamma beta : ℕ → ℚ) (t : Tensor4) : Tensor4 :=
  { t with data := fun b ch p q =>
      (t.data b ch p q - mean ch) * invStd ch * gamma ch + beta ch }

/-- `nn.ReLU`. -/
def relu (t : Tensor4) : Tensor4 :=
  { t with data := fun b ch p q => max (t.data b ch p q) 0 }

/-- `torch.nn.Softmax(dim=1)`; the exponential map `exp` is abstract since it
leaves `ℚ`. -/
def softmaxDim1 (exp : ℚ → ℚ) (t : Tensor4) : Tensor4 :=
  { t with data := fun b ch p q =>
      (exp (t.data b ch p q) / ∑ k ∈ Finset.range t.c, exp (t.data b k p q)) }

/-- Channel `t` of `self.gridX`: `arange(-pad, pad+1)` viewed `(1,1,1,-1)`,
expanded to `(1,1,k,k)` and flattened to `(1,k²,1,1)`, so channel `t` holds
`(t % k) - pad`. -/
def gridXval (kernelSize t : ℕ) : ℚ :=
  ((t % kernelSize : ℕ) : ℚ) - ((kernelSize / 2 : ℕ) : ℚ)

/-- Channel `t` of `self.gridY`: `arange(-pad, pad+1)` viewed `(1,1,-1,1)`,
expanded and flattened the same way, so channel `t` holds `(t / k) - pad`. -/
def gridYval (kernelSize t : ℕ) : ℚ :=
  ((t / kernelSize : ℕ) : ℚ) - ((kernelSize / 2 : ℕ) : ℚ)

/-- The source coordinate of output pixel `p` for align-corners bilinear
interpolation from `size` to `outSize` pixels. -/
def srcCoord (size outSize p : ℕ) : ℚ :=
  if outSize ≤ 1 then 0 else (p : ℚ) * ((size : ℚ) - 1) / ((outSize : ℚ) - 1)

/-- `F.upsample_bilinear(x, scale_factor=8)`, i.e. `F.interpolate` with
`mode="bilinear", align_corners=True`: the output spatial extent is 8 times
the input's, each output pixel bilinearly interpolating the four input pixels
surrounding its source coordinate. -/
def upsampleBilinear8 (t : Tensor4) : Tensor4 :=
  { n := t.n, c := t.c, w := 8 * t.w, h := 8 * t.h,
    data := fun b ch p q =>
      let sp := srcCoord t.w (8 * t.w) p
      let sq := srcCoord t.h (8 * t.h) q
      let p0 := ⌊sp⌋.toNat
      let q0 := ⌊sq⌋.toNat
      let p1 := min (p0 + 1) (t.w - 1)
      let q1 := min (q0 + 1) (t.h - 1)
      let dp := sp - (p0 : ℚ)
      let dq := sq - (q0 : ℚ)
      (1 - dp) * (1 - dq) * t.data b ch p0 q0 + (1 - dp) * dq * t.data b ch p0 q1 +
        dp * (1 - dq) * t.data b ch p1 q0 + dp * dq * t.data b ch p1 q1 }

/-- `torch.cat((a, b), dim=1)`. -/
def catDim1 (a b : Tensor4) : Tensor4 :=
  { n := a.n, c := a.c + b.c, w := a.w, h := a.h,
    data := fun bi ch p q =>
      if ch < a.c then a.data bi ch p q else b.data bi (ch - a.c) p q }

/-- The learnt state of `NetFlow`: kernel size, network type string
(`"netFlowCoarse"` or `"netMatch"`), the four convolution weights and the
three batch-norm parameter sets. -/
structure NetFlow where
  kernelSize : ℕ
  network : String
  w1 : ℕ → ℕ → ℕ → ℕ → ℚ
  bn1mean : ℕ → ℚ
  bn1invStd : ℕ → ℚ
  bn1gamma : ℕ → ℚ
  bn1beta : ℕ → ℚ
  w2 : ℕ → ℕ → ℕ → ℕ → ℚ
  bn2mean : ℕ → ℚ
  bn2invStd : ℕ → ℚ
  bn2gamma : ℕ → ℚ
  bn2beta : ℕ → ℚ
  w3 : ℕ → ℕ → ℕ → ℕ → ℚ
  bn3mean : ℕ → ℚ
  bn3invStd : ℕ → ℚ
  bn3gamma : ℕ → ℚ
  bn3beta : ℕ → ℚ
  w4 : ℕ → ℕ → ℕ → ℕ → ℚ

/-- `conv4`'s output channel count, fixed at construction: `kernelSize²` for
`netFlowCoarse` and 1 otherwise (the constructor defines `conv4` only for the
two known network types, with `netMatch` getting 1 channel). -/
def conv4OutChannels (M : NetFlow) : ℕ :=
  if M.network = "netFlowCoarse" then M.kernelSize * M.kernelSize else 1

/-- The straight-line prefix of `NetFlow.forward` shared by both network
types: conv1/bn1/relu, conv2/bn2/relu, conv3/bn3/relu, conv4, then softmax
over the channel dimension. -/
def netFlowBackbone (M : NetFlow) (exp : ℚ → ℚ) (x : Tensor4) : Tensor4 :=
  let x1 := relu (batchNorm2d M.bn1mean M.bn1invStd M.bn1gamma M.bn1beta
    (conv3x3 512 M.w1 x))
  let x2 := relu (batchNorm2d M.bn2mean M.bn2invStd M.bn2gamma M.bn2beta
    (conv3x3 256 M.w2 x1))
  let x3 := relu (batchNorm2d M.bn3mean M.bn3invStd M.bn3gamma M.bn3beta
    (conv3x3 128 M.w3 x2))
  let x4 := conv3x3 (conv4OutChannels M) M.w4 x3
  softmaxDim1 exp x4

/-- `NetFlow.forward`: after the softmaxed backbone, `netFlowCoarse` builds
`flowX = sum(x * gridX, dim=1, keepdim=True) / h * 2` and
`flowY = sum(x * gridY, dim=1, keepdim=True) / w * 2` (with `w`, `h` the
input's spatial extents), concatenates them X-then-Y and optionally upsamples
8×; any other network type returns the softmax output, optionally upsampled
8×. -/
def netFlowForward (M : NetFlow) (exp : ℚ → ℚ) (x : Tensor4) (up8X : Bool) :
    Tensor4 :=
  let xs := netFlowBackbone M exp x
  if M.network = "netFlowCoarse" then
    let flowX : Tensor4 :=
      ⟨xs.n, 1, xs.w, xs.h, fun b _ p q =>
        (∑ t ∈ Finset.range xs.c, xs.data b t p q * gridXval M.kernelSize t) /
          (x.h : ℚ) * 2⟩
    let flowY : Tensor4 :=
      ⟨xs.n, 1, xs.w, xs.h, fun b _ p q =>
        (∑ t ∈ Finset.range xs.c, xs.data b t p q * gridYval M.kernelSize t) /
          (x.w : ℚ) * 2⟩
    let flow := catDim1 flowX flowY
    if up8X then upsampleBilinear8 flow else flow
  else
    if up8X then upsampleBilinear8 xs else xs

/-- The backbone preserves batch and spatial extents. -/
theorem netFlowBackbone_dims (M : NetFlow) (exp : ℚ → ℚ) (x : Tensor4) :
    (netFlowBackbone M exp x).n = x.n ∧
    (netFlowBackbone M exp x).c = conv4OutChannels M ∧
    (netFlowBackbone M exp x).w = x.w ∧
    (netFlowBackbone M exp x).h = x.h := by
  unfold netFlowBackbone softmaxDim1 relu batchNorm2d conv3x3
  exact ⟨rfl, rfl, rfl, rfl⟩

/-- C6: `NetFlow.forward` is the straight-line operator chain whose output
arity depends on the network type: `netFlowCoarse` returns a 2-channel flow
(channel 0 the X component from `gridX`, channel 1 the Y component from
`gridY`); `netMatch` returns the 1-channel map produced by the softmax over
the channel dimension; in both cases `up8X = true` yields spatial extents
exactly 8 times the pre-upsampling map's and `up8X = false` leaves them
unchanged. -/
theorem C6_netflow_output_arity (M : NetFlow) (exp : ℚ → ℚ) (x : Tensor4)
    (up8X : Bool) :
    (M.network = "netFlowCoarse" →
      (netFlowForward M exp x up8X).c = 2 ∧
      (up8X = false → ∀ b p q,
        (netFlowForward M exp x up8X).data b 0 p q =
          (∑ t ∈ Finset.range (netFlowBackbone M exp x).c,
              (netFlowBackbone M exp x).data b t p q * gridXval M.kernelSize t) /
            (x.h : ℚ) * 2 ∧
        (netFlowForward M exp x up8X).data b 1 p q =
          (∑ t ∈ Finset.range (netFlowBackbone M exp x).c,
              (netFlowBackbone M exp x).data b t p q * gridYval M.kernelSize t) /
            (x.w : ℚ) * 2)) ∧
    (M.network = "netMatch" →
      (netFlowForward M exp x up8X).c = 1 ∧
      (up8X = false → netFlowForward M exp x up8X = netFlowBackbone M exp x)) ∧
    ((netFlowForward M exp x up8X).w =
        (if up8X then 8 * x.w else x.w) ∧
      (netFlowForward M exp x up8X).h =
        (if up8X then 8 * x.h else x.h)) := by
  obtain ⟨hn, hc, hw, hh⟩ := netFlowBackbone_dims M exp x
  refine ⟨?_, ?_, ?_⟩
  · intro hnet
    unfold netFlowForward
    rw [if_pos hnet]
    cases up8X with
    | false =>
        refine ⟨rfl, ?_⟩
        intro _ b p q
        constructor
        · show (catDim1 _ _).data b 0 p q = _
          unfold catDim1
          simp
        · show (catDim1 _ _).data b 1 p q = _
          unfold catDim1
          simp
    | true =>
        refine ⟨?_, ?_⟩
        · show (upsampleBilinear8 (catDim1 _ _)).c = 2
          unfold upsampleBilinear8 catDim1
          rfl
        · intro hfalse
          cases hfalse
  · intro hnet
    have hne : ¬ M.network = "netFlowCoarse" := by rw [hnet]; decide
    unfold netFlowForward
    rw [if_neg hne]
    have hc1 : conv4OutChannels M = 1 := by
      unfold conv4OutChannels
      rw [if_neg hne]
    cases up8X with
    | false =>
        refine ⟨?_, fun _ => rfl⟩
        show (netFlowBackbone M exp x).c = 1
        rw [hc, hc1]
    | true =>
        refine ⟨?_, fun hfalse => absurd hfalse (by decide)⟩
        show (netFlowBackbone M exp x).c = 1
        rw [hc, hc1]
  · unfold netFlowForward
    by_cases hnet : M.network = "netFlowCoarse"
    · rw [if_pos hnet]
      cases up8X with
      | false =>
          constructor
          · show (catDim1 _ _).w = x.w
            unfold catDim1
            simpa using hw
          · show (catDim1 _ _).h = x.h
            unfold catDim1
            simpa using hh
      | true =>
          constructor
          · show 8 * (netFlowBackbone M exp x).w = 8 * x.w
            rw [hw]
          · show 8 * (netFlowBackbone M exp x).h = 8 * x.h
            rw [hh]
    · rw [if_neg hnet]
      cases up8X with
      | false => exact ⟨hw, hh⟩
      | true =>
          constructor
          · show 8 * (netFlowBackbone M exp x).w = 8 * x.w
            rw [hw]
          · show 8 * (netFlowBackbone M exp x).h = 8 * x.h
            rw [hh]

/-- Witness for C6: a concrete 3×3-kernel coarse-flow network on a concrete
`(1, 9, 2, 2)` input has 2 output channels, and with `up8X` its spatial
extents are `16 × 16`. -/
theorem C6_netflow_output_arity_witness :
    (netFlowForward
        ⟨3, "netFlowCoarse", fun _ _ _ _ => 1, fun _ => 0, fun _ => 1, fun _ => 1,
          fun _ => 0, fun _ _ _ _ => 1, fun _ => 0, fun _ => 1, fun _ => 1, fun _ => 0,
          fun _ _ _ _ => 1, fun _ => 0, fun _ => 1, fun _ => 1, fun _ => 0,
          fun _ _ _ _ => 1⟩
        (fun _ => 1) ⟨1, 9, 2, 2, fun _ _ _ _ => 1⟩ true).c = 2 ∧
    (netFlowForward
        ⟨3, "netFlowCoarse", fun _ _ _ _ => 1, fun _ => 0, fun _ => 1, fun _ => 1,
          fun _ => 0, fun _ _ _ _ => 1, fun _ => 0, fun _ => 1, fun _ => 1, fun _ => 0,
          fun _ _ _ _ => 1, fun _ => 0, fun _ => 1, fun _ => 1, fun _ => 0,
          fun _ _ _ _ => 1⟩
        (fun _ => 1) ⟨1, 9, 2, 2, fun _ _ _ _ => 1⟩ true).w = 16 := by
  constructor
  · exact ((C6_netflow_output_arity _ (fun _ => 1) ⟨1, 9, 2, 2, fun _ _ _ _ => 1⟩
      true).1 rfl).1
  · exact (C6_netflow_output_arity _ (fun _ => 1) ⟨1, 9, 2, 2, fun _ _ _ _ => 1⟩
      true).2.2.1

/-! ## `predFlowCoarse` / `predFlowCoarseNoGrad` -/

/-- `torch.clamp(v, min=-1, max=1)`. -/
def clampPM1 (v : ℚ) : ℚ := min (max v (-1)) 1

/-- `predFlowCoarse`: run the coarse network on the correlation kernel,
compute the flow-gradient map (`torch.norm` over `dim=1` of forward spatial
differences; the square root is abstracted as `sqrt`), permute the flow to
`(B, W, H, 2)`, add the base `grid` and clamp every component to `[-1, 1]`. -/
def predFlowCoarse (NetFlowCoarse : Tensor4 → Bool → Tensor4)
    (corrKernel : Tensor4) (grid : ℕ → ℕ → ℕ → ℕ → ℚ) (sqrt : ℚ → ℚ)
    (up8X : Bool) : (ℕ → ℕ → ℕ → ℕ → ℚ) × (ℕ → ℕ → ℕ → ℕ → ℚ) :=
  let flowCoarse := NetFlowCoarse corrKernel up8X
  let flowGrad := fun b (_ : ℕ) p q =>
    sqrt (∑ ch ∈ Finset.range flowCoarse.c,
      (flowCoarse.data b ch (p + 1) (q + 1) - flowCoarse.data b ch p q) ^ 2)
  (flowGrad,
    fun b p q comp => clampPM1 (flowCoarse.data b comp p q + grid b p q comp))

/-- `predFlowCoarseNoGrad`: as `predFlowCoarse` but returning only the
clamped, grid-shifted flow. -/
def predFlowCoarseNoGrad (NetFlowCoarse : Tensor4 → Bool → Tensor4)
    (corrKernel : Tensor4) (grid : ℕ → ℕ → ℕ → ℕ → ℚ) (up8X : Bool) :
    ℕ → ℕ → ℕ → ℕ → ℚ :=
  let flowCoarse := NetFlowCoarse corrKernel up8X
  fun b p q comp => clampPM1 (flowCoarse.data b comp p q + grid b p q comp)

/-- C9: every component of the flow grids returned by `predFlowCoarse` and
`predFlowCoarseNoGrad` lies in `[-1, 1]`: the sum of the network flow and the
base grid is clamped to that interval before being returned. -/
theorem C9_flow_in_normalized_range (NetFlowCoarse : Tensor4 → Bool → Tensor4)
    (corrKernel : Tensor4) (grid : ℕ → ℕ → ℕ → ℕ → ℚ) (sqrt : ℚ → ℚ)
    (up8X : Bool) (b p q comp : ℕ) :
    (-1 ≤ (predFlowCoarse NetFlowCoarse corrKernel grid sqrt up8X).2 b p q comp ∧
      (predFlowCoarse NetFlowCoarse corrKernel grid sqrt up8X).2 b p q comp ≤ 1) ∧
    (-1 ≤ predFlowCoarseNoGrad NetFlowCoarse corrKernel grid up8X b p q comp ∧
      predFlowCoarseNoGrad NetFlowCoarse corrKernel grid up8X b p q comp ≤ 1) := by
  have hclamp : ∀ v : ℚ, -1 ≤ clampPM1 v ∧ clampPM1 v ≤ 1 := by
    intro v
    unfold clampPM1
    constructor
    · exact le_min (le_max_right v (-1)) (by norm_num)
    · exact min_le_right _ 1
  exact ⟨hclamp _, hclamp _⟩

end RANSACFlow
